import Mathlib

/-!
Verification of the mistra streaming time-series core against its
specification.  The Python sources are shallowly embedded: growing arrays
become total functions `Nat → value` together with an explicit length,
stateful update handlers become explicit state-passing functions, and
fallible operations record a Python-style raised error in their outcome.
Standardized prices are embedded as integers; float arithmetic on data is
embedded as exact rational arithmetic.
-/

set_option autoImplicit false

/-- Embeds `pricing.Candle`: an immutable record of start, end, min and max
standardized prices.  The `end` field is renamed `endv` (`end` is a Lean
keyword). -/
structure Candle where
  start : Int
  endv : Int
  min : Int
  max : Int
deriving DecidableEq, Repr

/-- A value of one of the two dtypes a `Source` admits: a standardized
price or a candle.  A STORED price element is a numpy `uint64` scalar in
the program (the growing array's dtype), not a Python `int`; where that
distinction matters — `Candle.merge`'s `isinstance` dispatch — the model
keeps it explicit (see `mergeStored`). -/
inductive PC where
  | price (p : Int)
  | candle (c : Candle)
deriving DecidableEq, Repr

/-- Embeds `Candle.merge` from `pricing.py` on the two argument kinds its
`isinstance` checks accept: a Python `int` (the `.price` case here stands
for such an int argument) extends the candle by a tick; a candle combines
the two (note the literal code computes the new `end` as
`max(self.start, price.start)`).  Any other argument — in particular the
numpy `uint64` scalars stored in price frames, for which
`isinstance(price, int)` is False — hits the final `else` and raises
TypeError; that path is modelled by `mergeStored`. -/
def Candle.merge (self : Candle) (price : PC) : Candle :=
  match price with
  | .price p => ⟨self.start, p, Min.min self.min p, Max.max self.max p⟩
  | .candle c => ⟨Min.min self.start c.start, Max.max self.start c.start,
                  Min.min self.min c.min, Max.max self.max c.max⟩

/-- One merge step of `_make_candle`'s loop, `candle.merge(source_element)`,
on a STORED element: a stored candle takes `Candle.merge`'s candle branch;
a stored price is a numpy `uint64` scalar, which fails both `isinstance`
checks inside `merge` (`isinstance(p, int)` is False for `uint64`) and
raises TypeError — modelled as `none`. -/
def mergeStored (cd : Candle) (e : PC) : Option Candle :=
  match e with
  | .price _ => none
  | .candle c => some (cd.merge (.candle c))

/-- Embeds `Digest._make_candle` / `Source._make_candle` faithfully over
the stored elements: the accumulator seeds with `Candle(p,p,p,p)` for a
first `uint64` price element and with the first candle otherwise, and each
remaining element is merged via `candle.merge` — which raises TypeError
(outer `none`) on every stored price element, since those are `uint64`
scalars and not the Python ints `merge` accepts.  The inner option is the
loop's `candle` accumulator (`None` before seeding). -/
def makeCandleChecked (elements : List PC) : Option (Option Candle) :=
  elements.foldlM
    (fun acc e =>
      match acc with
      | none =>
        match e with
        | .price p => some (some ⟨p, p, p, p⟩)
        | .candle c => some (some c)
      | some cd =>
        match mergeStored cd e with
        | none => none
        | some cd2 => some (some cd2))
    none

/-- The state of a `Source` frame: its growing array is embedded as a total
function from indices to stored elements (indices at or beyond `length`
hold the allocation default, `price 0`), together with the logical length
and the optional initial boundary value. -/
structure SourceState where
  rows : Nat → PC
  length : Nat
  initial : Option PC

/-- Writing a data block at `[index, index + data.length)` into the rows,
as `self._data[push_index:push_index+n] = push_data` does (scalar pushes
are the singleton case). -/
def writeList (rows : Nat → PC) (index : Nat) (data : List PC) : Nat → PC :=
  fun i =>
    if index ≤ i ∧ i < index + data.length then data.getD (i - index) (.price 0)
    else rows i

/-- The value `int(delta * (k+1) + previous)` with
`delta = float(next - previous) / distance`, from `Source._interpolate`;
float arithmetic is embedded exactly: `int(...)` truncates toward zero the
rational `(next - previous) * (k+1) / distance + previous`, which equals
the truncating integer division below. -/
def interpValue (previous next : Int) (distance : Nat) (k : Nat) : Int :=
  Int.tdiv ((next - previous) * ((k : Int) + 1) + previous * (distance : Int))
    (distance : Int)

/-- Embeds `Source._interpolate`: writes rows `[start, start + distance - 1)`
with `distance = end - start + 1`, linearly interpolating between the left
boundary value and the right boundary value (component-wise for candles). -/
def interpolate (rows : Nat → PC) (previous : PC) (start endI : Nat) (next : PC) :
    Nat → PC :=
  let distance := endI - start + 1
  fun i =>
    if start ≤ i ∧ i < start + (distance - 1) then
      match previous, next with
      | .price pl, .price pr => .price (interpValue pl pr distance (i - start))
      | .candle cl, .candle cr =>
          .candle ⟨interpValue cl.start cr.start distance (i - start),
                   interpValue cl.endv cr.endv distance (i - start),
                   interpValue cl.min cr.min distance (i - start),
                   interpValue cl.max cr.max distance (i - start)⟩
      | _, _ => rows i
    else rows i

/-- Python errors that `push` can raise in this model.  `outOfRange` stands
for the growing array's IndexError on an index at or past the current
length (behaviour of the array helpers, per the spec's GrowingArray
contract); `missingInitial` is the RuntimeError raised by
`_put_and_interpolate` when interpolation is needed on an empty frame with
no initial value. -/
inductive PushError where
  | outOfRange
  | missingInitial
deriving DecidableEq, Repr

/-- Outcome of one `Source.push` call: the state after the call (Python
exceptions propagate after the writes already performed), whether an
InterpolationWarning was emitted, the raised error if any, and the refresh
windows fired (push fires `on_refresh_linked_sources` then
`on_refresh_indicators`, both with the same `(index, end)` window; a raised
error prevents both). -/
structure PushOutcome where
  state : SourceState
  warned : Bool
  error : Option PushError
  events : List (Nat × Nat)

/-- Embeds `Source.push` together with `Source._put_and_interpolate`, in the
source's statement order: (1) write the pushed block in place; (2) read the
left boundary `initial if length == 0 else self._data[length][0]` — note
the literal code reads row `length`, which the insertion has just left at
the allocation default whenever it is a gap row; (3) if
`push_index - 1 > length`, warn, fail with `missingInitial` when the frame
was empty with no initial value, otherwise interpolate between that left
boundary and the first pushed element; (4) fire the refresh events. -/
def push (s : SourceState) (data : List PC) (index : Nat) : PushOutcome :=
  let rows1 := writeList s.rows index data
  let len1 := Max.max s.length (index + data.length)
  let endI := index + data.length
  if s.length = 0 then
    if s.length + 1 < index then
      match s.initial with
      | none => ⟨⟨rows1, len1, s.initial⟩, true, some .missingInitial, []⟩
      | some left =>
        if index < len1 then
          ⟨⟨interpolate rows1 left s.length index (rows1 index), len1, s.initial⟩,
           true, none, [(index, endI)]⟩
        else ⟨⟨rows1, len1, s.initial⟩, true, some .outOfRange, []⟩
    else ⟨⟨rows1, len1, s.initial⟩, false, none, [(index, endI)]⟩
  else
    if s.length < len1 then
      if s.length + 1 < index then
        if index < len1 then
          ⟨⟨interpolate rows1 (rows1 s.length) s.length index (rows1 index), len1,
            s.initial⟩, true, none, [(index, endI)]⟩
        else ⟨⟨rows1, len1, s.initial⟩, true, some .outOfRange, []⟩
      else ⟨⟨rows1, len1, s.initial⟩, false, none, [(index, endI)]⟩
    else ⟨⟨rows1, len1, s.initial⟩, false, some .outOfRange, []⟩

theorem writeList_outside (rows : Nat → PC) (index : Nat) (data : List PC) (i : Nat)
    (h : i < index ∨ index + data.length ≤ i) :
    writeList rows index data i = rows i := by
  unfold writeList
  rw [if_neg (by omega : ¬(index ≤ i ∧ i < index + data.length))]

theorem writeList_inside (rows : Nat → PC) (index : Nat) (data : List PC) (j : Nat)
    (h : j < data.length) :
    writeList rows index data (index + j) = data.getD j (.price 0) := by
  unfold writeList
  rw [if_pos (by omega : index ≤ index + j ∧ index + j < index + data.length)]
  congr 1
  omega

/-- C10: a push strictly inside the already-written range
(`1 ≤ index`, `index + k ≤ len`) emits no InterpolationWarning, leaves the
length unchanged, and leaves every row outside `[index, index + k)` with
exactly its previous value.  (Per the array bounds contract the call also
raises `outOfRange` when it reads the left-boundary row `length`, after the
pushed range has already been overwritten and before any event fires; the
claimed frame effects hold regardless.) -/
theorem C10_interior_push_overwrites_only (s : SourceState) (data : List PC)
    (index : Nat) (h1 : 1 ≤ index) (h2 : index + data.length ≤ s.length) :
    (push s data index).warned = false ∧
    (push s data index).state.length = s.length ∧
    ∀ i, i < index ∨ index + data.length ≤ i →
      (push s data index).state.rows i = s.rows i := by
  have h0 : ¬ s.length = 0 := by omega
  have hmax : Max.max s.length (index + data.length) = s.length := by omega
  have hlt : ¬ s.length < s.length := lt_irrefl s.length
  simp only [push, hmax, if_neg h0, if_neg hlt]
  refine ⟨by trivial, by trivial, ?_⟩
  intro i hi
  exact writeList_outside s.rows index data i hi

/-- A concrete interior-push witness state: three price rows. -/
def srcThree : SourceState := ⟨fun _ => .price 7, 3, none⟩

theorem C10_interior_push_overwrites_only_witness :
    (push srcThree [.price 9] 1).warned = false ∧
    (push srcThree [.price 9] 1).state.length = srcThree.length ∧
    ∀ i, i < 1 ∨ 1 + [PC.price 9].length ≤ i →
      (push srcThree [.price 9] 1).state.rows i = srcThree.rows i :=
  C10_interior_push_overwrites_only srcThree [.price 9] 1 (by decide) (by decide)

/-- An empty price source with no initial value. -/
def srcEmptyNoInitial : SourceState := ⟨fun _ => .price 0, 0, none⟩

/-- C5 counterexample: on an empty price source with no initial value,
`push([200], index=4)` does raise the MissingInitial error and fires no
refresh, but it does NOT leave the state unchanged: the length has already
grown from 0 to 5 and row 4 already holds the pushed value, refuting the
claim that a failed push leaves `len(self)` and the row contents identical
to their values before the call. -/
theorem C5_counterexample :
    (push srcEmptyNoInitial [.price 200] 4).error = some .missingInitial ∧
    (push srcEmptyNoInitial [.price 200] 4).state.length = 5 ∧
    (push srcEmptyNoInitial [.price 200] 4).state.rows 4 = .price 200 ∧
    ¬ (push srcEmptyNoInitial [.price 200] 4).state.length
        = srcEmptyNoInitial.length := by
  decide

/-- C5 amended: on a source with `len == 0` and no initial value, a push at
an index requiring interpolation fails with the MissingInitial error, emits
the InterpolationWarning first, and fires no refresh event — but the state
is not unchanged: the pushed rows are already written in place, the length
has already grown to `index + k`, and only the rows outside the pushed
range keep their previous values. -/
theorem C5_failed_push_writes_then_raises (s : SourceState) (data : List PC)
    (index : Nat) (h0 : s.length = 0) (hinit : s.initial = none)
    (hgap : s.length + 1 < index) :
    (push s data index).error = some .missingInitial ∧
    (push s data index).warned = true ∧
    (push s data index).events = [] ∧
    (push s data index).state.length = index + data.length ∧
    (∀ i, i < index ∨ index + data.length ≤ i →
      (push s data index).state.rows i = s.rows i) ∧
    (∀ j, j < data.length →
      (push s data index).state.rows (index + j) = data.getD j (.price 0)) := by
  have hmax : Max.max s.length (index + data.length) = index + data.length := by
    omega
  simp only [push, if_pos h0, if_pos hgap, hinit, hmax]
  refine ⟨by trivial, by trivial, by trivial, by trivial, ?_, ?_⟩
  · intro i hi
    exact writeList_outside s.rows index data i hi
  · intro j hj
    exact writeList_inside s.rows index data j hj

theorem C5_failed_push_writes_then_raises_witness :
    (push srcEmptyNoInitial [.price 200] 4).error = some .missingInitial ∧
    (push srcEmptyNoInitial [.price 200] 4).warned = true ∧
    (push srcEmptyNoInitial [.price 200] 4).events = [] ∧
    (push srcEmptyNoInitial [.price 200] 4).state.length = 4 + 1 ∧
    (∀ i, i < 4 ∨ 4 + [PC.price 200].length ≤ i →
      (push srcEmptyNoInitial [.price 200] 4).state.rows i
        = srcEmptyNoInitial.rows i) ∧
    (∀ j, j < [PC.price 200].length →
      (push srcEmptyNoInitial [.price 200] 4).state.rows (4 + j)
        = [PC.price 200].getD j (.price 0)) :=
  C5_failed_push_writes_then_raises srcEmptyNoInitial [.price 200] 4 rfl rfl
    (by decide)

/-- The state of a `Digest` attached to a source: candle rows (the
candle-typed growing array's allocation default is the empty cell `none`),
the logical length, and `last_read_ubound`. -/
structure DigestState where
  rows : Nat → Option Candle
  length : Nat
  ubound : Nat

/-- The source rows a digest bin `i` summarizes:
`source[i*r : i*r + r][:, 0]` with `r` the relative bin size. -/
def binSlice (src : SourceState) (r i : Nat) : List PC :=
  (List.range r).map (fun j => src.rows (i * r + j))

/-- Embeds `Digest._on_refresh(start, end)`: clamps `start` down to
`last_read_ubound`, recomputes every digest bin in
`[start // r, ceil(end / r))` as the candle fold of its source slice,
extends the digest length over the written bins, and raises
`last_read_ubound` to `end`.  Returns `none` when the update raises and
aborts as a whole: either because a processed bin's source slice reaches
past the source length (the timelapse slice read fails OutOfRange per the
GrowingArray contract), or because `_make_candle` raises TypeError on a
bin — which happens on every stored price element it merges after the
seed, see `makeCandleChecked`. -/
def digestRefresh (src : SourceState) (d : DigestState) (r start endI : Nat) :
    Option DigestState :=
  let start1 := Min.min start d.ubound
  let minIndex := start1 / r
  let maxIndex := (endI + r - 1) / r
  if minIndex < maxIndex then
    if maxIndex * r ≤ src.length then
      if (List.range (maxIndex - minIndex)).all
          (fun k => (makeCandleChecked (binSlice src r (minIndex + k))).isSome) then
        some ⟨fun i =>
                if minIndex ≤ i ∧ i < maxIndex then
                  (makeCandleChecked (binSlice src r i)).getD none
                else d.rows i,
              Max.max d.length maxIndex, Max.max d.ubound endI⟩
      else none
    else none
  else some ⟨d.rows, d.length, Max.max d.ubound endI⟩

/-- A source together with an attached digest. -/
structure SDState where
  src : SourceState
  dig : DigestState

/-- One step of the combined system: a `push(data, index)` on the source
followed by the digest's refresh notification with the fired window
`(index, index + k)`.  A push or refresh error aborts the run. -/
def sdStep (r : Nat) (st : SDState) (p : Nat × List PC) : Option SDState :=
  let o := push st.src p.2 p.1
  match o.error with
  | some _ => none
  | none =>
    match digestRefresh o.state st.dig r p.1 (p.1 + p.2.length) with
    | none => none
    | some d2 => some ⟨o.state, d2⟩

/-- Runs a sequence of pushes, each followed by its digest refresh. -/
def sdRun (r : Nat) (st : SDState) : List (Nat × List PC) → Option SDState
  | [] => some st
  | p :: ps =>
    match sdStep r st p with
    | none => none
    | some st1 => sdRun r st1 ps

/-- A fresh source (given initial boundary value) with a freshly attached
digest. -/
def sdInit (initial : Option PC) : SDState :=
  ⟨⟨fun _ => .price 0, 0, initial⟩, ⟨fun _ => none, 0, 0⟩⟩

/-- A price-source run for the C1 evaluation: two pushes of two prices
each into an empty price source carrying a digest of relative bin size 2 —
exactly the configuration whose bins the claim's price-seed case
describes. -/
def psW : List (Nat × List PC) :=
  [(0, [.price 10, .price 20]), (2, [.price 5, .price 30])]

/-- A candle-source run for comparison: one push of two candles into an
empty candle source carrying a digest of relative bin size 2. -/
def psWC : List (Nat × List PC) :=
  [(0, [.candle ⟨10, 12, 9, 13⟩, .candle ⟨12, 11, 10, 14⟩])]

/-- C1 evaluation at the failing input.  The seeding of `_make_candle`
does handle a stored `uint64` price (first conjunct), but merging the
second stored price element raises TypeError, because `Candle.merge`
accepts only Python ints or candles and `isinstance(p, int)` is False for
numpy `uint64` (second conjunct); since a digest's relative bin size is at
least 2, every price-source digest bin crashes mid-refresh and the run
aborts with no state in which `digest[i]` equals the claimed fold (third
conjunct).  Over a candle source the same pipeline completes and the
written bin does equal the `Candle.merge` fold of its source slice (last
two conjuncts): the failure is specific to the claim's price-seed case. -/
theorem C1_price_digest_fold_raises :
    makeCandleChecked [PC.price 10] = some (some ⟨10, 10, 10, 10⟩) ∧
    makeCandleChecked [PC.price 10, PC.price 20] = none ∧
    (sdRun 2 (sdInit none) psW).isSome = false ∧
    ((sdRun 2 (sdInit none) psWC).getD (sdInit none)).dig.rows 0
      = some ⟨10, 12, 9, 14⟩ ∧
    makeCandleChecked
        (binSlice ((sdRun 2 (sdInit none) psWC).getD (sdInit none)).src 2 0)
      = some (some ⟨10, 12, 9, 14⟩) := by
  decide

/-- The per-dependency high-water marks of an indicator over `n`
broadcasters: `_max_requested_start` and `_max_requested_end` (both start
at 0 for every broadcaster). -/
structure IndicatorDeps (n : Nat) where
  maxRequestedStart : Fin n → Nat
  maxRequestedEnd : Fin n → Nat

/-- Python's `min(...)` over all values of a per-dependency map (the
constructor guarantees at least one broadcaster). -/
def minOver {n : Nat} (f : Fin (n + 1) → Nat) : Nat :=
  Finset.univ.inf' Finset.univ_nonempty f

/-- Embeds `Indicator._on_dependency_update(dependency, start, end)`:
raises the dependency's requested-end high-water mark to `end`, takes the
minimum across all dependencies and clamps it by `end` to get
`current_end`; symmetrically for `current_start`; returns the new state
together with the `(current_start, current_end)` window that is passed to
`_update` and then fired on `on_refresh_indicators`. -/
def onDependencyUpdate {n : Nat} (st : IndicatorDeps (n + 1)) (dep : Fin (n + 1))
    (start endI : Nat) : IndicatorDeps (n + 1) × Nat × Nat :=
  let mre := Function.update st.maxRequestedEnd dep
    (Max.max endI (st.maxRequestedEnd dep))
  let currentEnd := Min.min (minOver mre) endI
  let mrs := Function.update st.maxRequestedStart dep
    (Max.max start (st.maxRequestedStart dep))
  let currentStart := Min.min (minOver mrs) start
  (⟨mrs, mre⟩, currentStart, currentEnd)

/-- One step of the constructor's seeding loop: invoke
`_on_dependency_update(b, 0, len(b))` and record the fired window. -/
def seedStep {n : Nat} (lengths : Fin (n + 1) → Nat)
    (acc : IndicatorDeps (n + 1) × List (Nat × Nat)) (b : Fin (n + 1)) :
    IndicatorDeps (n + 1) × List (Nat × Nat) :=
  ((onDependencyUpdate acc.1 b 0 (lengths b)).1,
   acc.2 ++ [(onDependencyUpdate acc.1 b 0 (lengths b)).2])

/-- Embeds the seeding in `Indicator.__init__`: starting from all-zero
high-water marks, fires `_on_dependency_update(b, 0, len(b))` for each
broadcaster in iteration order. -/
def indicatorSeed {n : Nat} (lengths : Fin (n + 1) → Nat)
    (order : List (Fin (n + 1))) : IndicatorDeps (n + 1) × List (Nat × Nat) :=
  order.foldl (seedStep lengths) (⟨fun _ => 0, fun _ => 0⟩, [])

theorem indicatorSeed_state_aux {n : Nat} (lengths : Fin (n + 1) → Nat)
    (order : List (Fin (n + 1))) (st0 : IndicatorDeps (n + 1))
    (ws : List (Nat × Nat)) :
    (order.foldl (seedStep lengths) (st0, ws)).1
      = order.foldl (fun s b => (onDependencyUpdate s b 0 (lengths b)).1) st0 := by
  induction order generalizing st0 ws with
  | nil => rfl
  | cons b bs ih => exact ih _ _

/-- C2: on `on_dependency_update(dep, start, end)`, the dependency's
requested-end mark becomes `max(previous, end)` and its requested-start
mark becomes `max(previous, start)` (other dependencies untouched); the
recomputed-and-fired window is exactly
`(min(min over deps of max_requested_start, start),
min(min over deps of max_requested_end, end))`; and at construction the
indicator seeds itself by invoking `on_dependency_update(b, 0, len(b))`
for each broadcaster in turn. -/
theorem C2_dependency_update_window {n : Nat} (st : IndicatorDeps (n + 1))
    (dep : Fin (n + 1)) (start endI : Nat) (lengths : Fin (n + 1) → Nat)
    (order : List (Fin (n + 1))) :
    (onDependencyUpdate st dep start endI).1.maxRequestedEnd
        = Function.update st.maxRequestedEnd dep
            (Max.max (st.maxRequestedEnd dep) endI) ∧
    (onDependencyUpdate st dep start endI).1.maxRequestedStart
        = Function.update st.maxRequestedStart dep
            (Max.max (st.maxRequestedStart dep) start) ∧
    (onDependencyUpdate st dep start endI).2
        = (Min.min
             (minOver (onDependencyUpdate st dep start endI).1.maxRequestedStart)
             start,
           Min.min
             (minOver (onDependencyUpdate st dep start endI).1.maxRequestedEnd)
             endI) ∧
    (indicatorSeed lengths order).1
        = order.foldl (fun s b => (onDependencyUpdate s b 0 (lengths b)).1)
            ⟨fun _ => 0, fun _ => 0⟩ := by
  refine ⟨?_, ?_, rfl, indicatorSeed_state_aux lengths order _ _⟩
  · simp only [onDependencyUpdate]
    rw [Nat.max_comm]
  · simp only [onDependencyUpdate]
    rw [Nat.max_comm]

/-- Sum of the slice `[a, b)` of a function-backed data row, as the numpy
`.sum()` of `data[a:b]` (callers below stay within the slice's length). -/
def sliceSum (f : Nat → ℚ) (a b : Nat) : ℚ :=
  ((List.range (b - a)).map (fun k => f (a + k))).sum

/-- Embeds `MovingMean._update(start, end)` over the projected parent
values.  Literally as the code does it: it slices
`data = parent[max(0, start + 1 - tail_size) : end]` once, and then for
each `idx ∈ [0, end - start)` stores NaN when `start + idx + 1 - T < 0`
(with `nan_on_short_tail`), else
`data[max(0, idx + 1 - T) : idx + 1].sum() / T` — note the window is
indexed relative to the slice offset `start + 1 - T`, not to `idx`'s own
absolute position. -/
def movingMeanUpdate (parent : Nat → ℚ) (T : Nat) (nanShort : Bool)
    (buf : Nat → Option ℚ) (start endI : Nat) : Nat → Option ℚ :=
  fun i =>
    if start ≤ i ∧ i < endI then
      if start + (i - start) + 1 < T ∧ nanShort = true then none
      else some (sliceSum (fun j => parent (start + 1 - T + j))
        (i - start + 1 - T) (i - start + 1) / (T : ℚ))
    else buf i

/-- The parent price series 10,20,30,40,50 and then a further pushed 60,
projected to floats. -/
def parentSix : Nat → ℚ := fun n => [10, 20, 30, 40, 50, 60].getD n 0

/-- MovingMean(tail 3) buffer after the construction-time update over
`[0, 5)` (the first five parent values). -/
def mmBuf1 : Nat → Option ℚ :=
  movingMeanUpdate parentSix 3 true (fun _ => none) 0 5

/-- The same buffer after the incremental update `[5, 6)` that the push of
the sixth value (60) triggers. -/
def mmBuf2 : Nat → Option ℚ := movingMeanUpdate parentSix 3 true mmBuf1 5 6

/-- C3 evaluation at the failing input: over the parent 10,20,30,40,50 the
construction-time update (start = 0) stores the correct means
NaN, NaN, 20, 30, 40; but the incremental update `[5, 6)` after pushing 60
stores `40/3` at index 5 — the mis-aligned slice window picks only the
value 40 and still divides by the tail size — instead of
`mean(40, 50, 60) = 50` required by the claim (and by the indicator's own
docstring). -/
theorem C3_moving_mean_incremental_eval :
    mmBuf1 0 = none ∧ mmBuf1 1 = none ∧ mmBuf1 2 = some 20 ∧
    mmBuf1 3 = some 30 ∧ mmBuf1 4 = some 40 ∧
    mmBuf2 5 = some (40 / 3) ∧
    ¬ (40 / 3 : ℚ) = (parentSix 3 + parentSix 4 + parentSix 5) / 3 := by
  refine ⟨?_, ?_, ?_, ?_, ?_, ?_, ?_⟩ <;>
    norm_num [mmBuf1, mmBuf2, movingMeanUpdate, sliceSum, parentSix,
      List.range_succ, List.getD]

/-- `Indicator._initial_width()`: the base-class default, 1.  This is the
width `Indicator.__init__` hands to the growing array; `MovingVariance`
does not override it. -/
def indicator_initial_width : Nat := 1

/-- `MovingVariance.width()`: 2 when both the `var` and `stderr` flags are
enabled, else 1.  This method is what `MovingVariance` overrides — but the
constructor never consults it. -/
def movingVariance_width (var stderr : Bool) : Nat :=
  if var && stderr then 2 else 1

/-- Modelled from the spec: `GrowingArray.set_slice` fails InvalidInput
when the written matrix's width differs from the array width (the helper
`fix_input` lives in the growing-array support module, which is not under
src/). -/
def setSliceWidthOk (arrayWidth matrixWidth : Nat) : Bool :=
  decide (arrayWidth = matrixWidth)

/-- Sum of squared deviations from `mu` over the slice `[a, b)`, as
`((values[a:b] - mean) ** 2).sum()`. -/
def sliceSumSq (f : Nat → ℚ) (mu : ℚ) (a b : Nat) : ℚ :=
  ((List.range (b - a)).map (fun k => (f (a + k) - mu) ^ 2)).sum

/-- Embeds the per-index variance of `MovingVariance._update`: with
`values = projected_parent[max(0, start + 1 - T) : end]` and
`mean = moving_mean[start + idx]`, computes
`((values[max(0, idx + 1 - T) : idx + 1] - mean) ** 2).sum() / n` with
`n = T - 1` when unbiased (NaN means propagate through the `Option`). -/
def movingVarianceVarAt (means : Nat → Option ℚ) (values : Nat → ℚ) (T : Nat)
    (unbiased : Bool) (start idx : Nat) : Option ℚ :=
  (means (start + idx)).map (fun mu =>
    sliceSumSq (fun j => values (start + 1 - T + j)) mu (idx + 1 - T) (idx + 1)
      / (((if unbiased then T - 1 else T) : Nat) : ℚ))

/-- The price parent 10,20,30,40,50 projected to floats. -/
def parentFive : Nat → ℚ := fun n => [10, 20, 30, 40, 50].getD n 0

/-- MovingMean(tail 3) over that parent, after the construction-time
update `[0, 5)`. -/
def meansFive : Nat → Option ℚ :=
  movingMeanUpdate parentFive 3 true (fun _ => none) 0 5

/-- C8 evaluation: with `var=true, stderr=true` the override
`MovingVariance.width()` does answer 2, but the buffer is allocated with
`Indicator._initial_width()` — the inherited default 1, since
`MovingVariance` overrides `width()` rather than `_initial_width()` — so
writing the two-column `[variance, stderr]` matrix fails the slice-width
check and no row of width 2 ever exists.  The variance value itself would
be 100 at index 2 (and the stderr its square root, 10), as the claim's
scenario computes. -/
theorem C8_variance_width_mismatch_eval :
    movingVariance_width true true = 2 ∧
    indicator_initial_width = 1 ∧
    setSliceWidthOk indicator_initial_width (movingVariance_width true true)
      = false ∧
    movingVarianceVarAt meansFive parentFive 3 true 0 2 = some 100 ∧
    ((10 : ℚ) ^ 2 = 100) := by
  refine ⟨by decide, by decide, by decide, ?_, by norm_num⟩
  norm_num [movingVarianceVarAt, meansFive, movingMeanUpdate, sliceSumSq,
    sliceSum, parentFive, List.range_succ, List.getD]

/-- A predictor algorithm: `tail_size`, `step`, and
`predict(window) -> (prediction, structural_error)`. -/
structure PredAlg where
  tailSize : Nat
  step : Nat
  predict : List ℚ → ℚ × ℚ

/-- Embeds `Predictor._update_index(index)`: for `index < tail_size` it
returns at once; otherwise it reads the input tail
`input[index + 1 - tail_size : index + 1]` and calls `algorithm.predict`
on it — and then the method ends: the stores of steps 2..5 (PREDICTION,
both STRUCTURAL_ERROR columns, PREDICTION_DIFFERENCE, STANDARD_ERROR)
exist only as comments in the source, so the buffer is returned
unchanged. -/
def predictorUpdateIndex (alg : PredAlg) (input : Nat → ℚ)
    (buf : Nat → Fin 5 → Option ℚ) (index : Nat) : Nat → Fin 5 → Option ℚ :=
  if index < alg.tailSize then buf
  else
    let _tail := (List.range alg.tailSize).map
      (fun j => input (index + 1 - alg.tailSize + j))
    let _pse := alg.predict _tail
    buf

/-- Embeds `Predictor._update(start, end)`: the per-index update applied
over `[start, end)`. -/
def predictorUpdate (alg : PredAlg) (input : Nat → ℚ)
    (buf : Nat → Fin 5 → Option ℚ) (start endI : Nat) : Nat → Fin 5 → Option ℚ :=
  (List.range (endI - start)).foldl
    (fun b k => predictorUpdateIndex alg input b (start + k)) buf

/-- A concrete algorithm for the C7 evaluation: tail 2, step 1, predicting
the window sum with structural error 1. -/
def algEx : PredAlg := ⟨2, 1, fun w => (w.sum, 1)⟩

/-- The predictor input series 10, 20, 30. -/
def inputEx : Nat → ℚ := fun n => [10, 20, 30].getD n 0

/-- The all-NaN five-column predictor buffer. -/
def predBuf0 : Nat → Fin 5 → Option ℚ := fun _ _ => none

/-- C7 evaluation at the failing input: updating `[0, 3)` with a tail-2
algorithm leaves the buffer exactly as it was — in particular the
PREDICTION cell at index 2 is still NaN even though the algorithm's
prediction for the window `[20, 30]` is 50 — because `_update_index`
computes the prediction and then returns without writing any of the
columns the claim describes. -/
theorem C7_predictor_never_writes :
    predictorUpdate algEx inputEx predBuf0 0 3 = predBuf0 ∧
    predictorUpdate algEx inputEx predBuf0 0 3 2 (0 : Fin 5) = none ∧
    (algEx.predict [inputEx 1, inputEx 2]).1 = 50 := by
  refine ⟨rfl, rfl, ?_⟩
  norm_num [algEx, inputEx, List.getD]

/-- Python errors arising in the dispose model. -/
inductive PyError where
  | attributeError
  | typeError
  | disposedError
deriving DecidableEq, Repr

/-- A node of the indicator graph for the dispose model: the `_disposed`
flag, the buffer (`_data`), the keys of `_broadcasters_read` (producers
this indicator subscribed to; `none` once nulled), and the dependent
receivers registered on its `on_refresh_indicators`. -/
structure IndNode where
  disposed : Bool
  data : Option Unit
  broadcastersRead : Option (List Nat)
  subscribers : List Nat
deriving DecidableEq

/-- Embeds `Indicator.dispose`: a second call is a no-op; the first call
sets the flag, nulls `_data` and `_broadcasters_read`, and then iterates
`self._broadcasters_read.keys()` — which has just been set to `None`, so
the call raises AttributeError: the unsubscription loop and the recursive
dispose of the registered dependents never execute.  (Were the map still
present, the source would next iterate the Event object itself, which is
not iterable: TypeError.) -/
def dispose (nodes : Nat → IndNode) (i : Nat) : (Nat → IndNode) × Option PyError :=
  if (nodes i).disposed then (nodes, none)
  else
    let nodes1 := Function.update nodes i
      { nodes i with disposed := true, data := none, broadcastersRead := none }
    match (nodes1 i).broadcastersRead with
    | none => (nodes1, some .attributeError)
    | some _ => (nodes1, some .typeError)

/-- Embeds the guard of `Indicator.__getitem__`: returns the Disposed
error raised on a disposed indicator, `none` when the read proceeds. -/
def indicatorGetItemError (nodes : Nat → IndNode) (i : Nat) : Option PyError :=
  if (nodes i).disposed then some .disposedError else none

/-- The two-indicator chain for the C6 evaluation: indicator 0 (a moving
mean over source 100) with dependent indicator 1 (a moving variance over
indicator 0). -/
def disposeNodes : Nat → IndNode := fun n =>
  if n = 0 then ⟨false, some (), some [100], [1]⟩
  else if n = 1 then ⟨false, some (), some [0], []⟩
  else ⟨false, none, none, []⟩

/-- C6 evaluation at the failing input: disposing indicator 0 marks it
disposed and releases its buffer, but then raises AttributeError
(iterating the just-nulled `_broadcasters_read`), so it never unsubscribes
from its producers and never disposes its dependent: indicator 1 stays
undisposed and still readable, while a repeated `dispose()` of indicator 0
is a no-op — refuting the claimed recursive disposal and the claim that
reads on dependents fail `Disposed`. -/
theorem C6_dispose_raises_before_recursing :
    (dispose disposeNodes 0).2 = some .attributeError ∧
    ((dispose disposeNodes 0).1 0).disposed = true ∧
    ((dispose disposeNodes 0).1 0).data = none ∧
    ((dispose disposeNodes 0).1 1).disposed = false ∧
    ((dispose disposeNodes 0).1 1).broadcastersRead = some [0] ∧
    indicatorGetItemError (dispose disposeNodes 0).1 1 = none ∧
    indicatorGetItemError (dispose disposeNodes 0).1 0 = some .disposedError ∧
    dispose (dispose disposeNodes 0).1 0 = ((dispose disposeNodes 0).1, none) := by
  refine ⟨by decide, by decide, by decide, by decide, by decide, by decide,
    by decide, rfl⟩

/-- C9: `Candle.merge` with an integer `p` returns
`(self.start, p, min(self.min, p), max(self.max, p))`, and with another
candle `c` returns `(min(self.start, c.start), max(self.start, c.start),
min(self.min, c.min), max(self.max, c.max))` — the `end` of the
candle-candle case being the max of the two `start` fields, exactly as the
code literally states. -/
theorem C9_candle_merge_literal (self c : Candle) (p : Int) :
    self.merge (.price p) =
      ⟨self.start, p, min self.min p, max self.max p⟩ ∧
    self.merge (.candle c) =
      ⟨min self.start c.start, max self.start c.start,
       min self.min c.min, max self.max c.max⟩ :=
  ⟨rfl, rfl⟩
